import Mathlib

set_option maxHeartbeats 1000000

/-!
Shallow embedding of the HSM dispatch core in `src/heimlig/src/hsm/core.rs`.

Queues are modelled as lists: a `Stream` source is a list whose head is the
next peekable element, a bounded `Sink` is a list of accepted elements
together with a capacity, and `poll_ready` succeeds exactly when the list is
shorter than the capacity.  One call to `execute()` is modelled as one
synchronous step: the `select_array` over the rotated client futures is
evaluated as its first poll (each future is polled in order, and the first
ready one wins, which is exactly the embassy `select_array` behaviour on a
single poll).  Rust panics (`expect`, `assert!`, `%` by zero) are modelled by
the `Panic` type; a suspension point that is reached before any commit is the
`pending` outcome, and a suspension inside the post-select dequeue is the
`blocked` outcome.
-/

/-- Modelled from the spec: the `RequestType` enumeration of `common::jobs`
(the `jobs` module is not among the provided sources).  Spec section 6 lists
at minimum `ImportKey`, `GetRandom`, `GenerateSymmetricKey`,
`EncryptChaCha20Poly1305`, `DecryptChaCha20Poly1305`. -/
inductive RequestType where
  | ImportKey
  | GetRandom
  | GenerateSymmetricKey
  | EncryptChaCha20Poly1305
  | DecryptChaCha20Poly1305
  deriving DecidableEq

/-- Modelled from the spec: `common::jobs::Request` (not among the provided
sources).  Each variant carries a `client_id`, a `request_id`, and a
variant-specific payload; byte slices are modelled as `List Nat`. -/
inductive Request where
  | ImportKey (client_id request_id key_id : Nat) (data : List Nat)
  | GetRandom (client_id request_id len : Nat)
  | GenerateSymmetricKey (client_id request_id key_id : Nat)
  | EncryptChaCha20Poly1305 (client_id request_id key_id : Nat) (data : List Nat)
  | DecryptChaCha20Poly1305 (client_id request_id key_id : Nat) (data : List Nat)
  deriving DecidableEq

/-- Modelled from the spec: the opaque error kind produced by the key store
(`hsm::keystore::Error`, not among the provided sources). -/
structure KeyStoreError where
  code : Nat
  deriving DecidableEq

/-- Modelled from the spec: `common::jobs::Error` (not among the provided
sources).  Spec section 6: `NoKeyStore`, `KeyStore(inner)`,
`UnknownRequestType`, `QueueSend`. -/
inductive JobsError where
  | NoKeyStore
  | KeyStore (inner : KeyStoreError)
  | UnknownRequestType
  | QueueSend
  deriving DecidableEq

/-- Modelled from the spec: `common::jobs::Response` (not among the provided
sources).  Mirrors `Request`; the `Error` variant embeds a `JobsError`. -/
inductive Response where
  | ImportKey (client_id request_id : Nat)
  | GetRandom (client_id request_id : Nat) (data : List Nat)
  | GenerateSymmetricKey (client_id request_id key_id : Nat)
  | EncryptChaCha20Poly1305 (client_id request_id : Nat) (data : List Nat)
  | DecryptChaCha20Poly1305 (client_id request_id : Nat) (data : List Nat)
  | Error (client_id request_id : Nat) (error : JobsError)
  deriving DecidableEq

/-- `Request::get_type` from `common::jobs`: the request type tag of a
request, derivable in O(1) per the spec. -/
def Request.get_type : Request → RequestType
  | .ImportKey .. => .ImportKey
  | .GetRandom .. => .GetRandom
  | .GenerateSymmetricKey .. => .GenerateSymmetricKey
  | .EncryptChaCha20Poly1305 .. => .EncryptChaCha20Poly1305
  | .DecryptChaCha20Poly1305 .. => .DecryptChaCha20Poly1305

/-- `Response::get_client_id` from `common::jobs`: the client id embedded in
a response. -/
def Response.get_client_id : Response → Nat
  | .ImportKey client_id _ => client_id
  | .GetRandom client_id _ _ => client_id
  | .GenerateSymmetricKey client_id _ _ => client_id
  | .EncryptChaCha20Poly1305 client_id _ _ => client_id
  | .DecryptChaCha20Poly1305 client_id _ _ => client_id
  | .Error client_id _ _ => client_id

/-- Modelled from the spec: the polymorphic `KeyStore` contract
(`hsm::keystore`, not among the provided sources).  Only the `import`
capability is exercised by the core; the store is characterised by which
`(key_id, data)` pairs it accepts, the error kind it reports otherwise, and
the keys stored so far. -/
structure KeyStore where
  accepts : Nat → List Nat → Bool
  failure : Nat → List Nat → KeyStoreError
  keys : List (Nat × List Nat)

/-- The `import` operation of the key-store contract: on success the pair is
stored, on failure the store is unchanged and an error kind is reported.
(`import` is a reserved word in Lean, hence the name `keyImport`.) -/
def KeyStore.keyImport (ks : KeyStore) (key_id : Nat) (data : List Nat) :
    Except KeyStoreError KeyStore :=
  if ks.accepts key_id data then
    .ok { ks with keys := ks.keys ++ [(key_id, data)] }
  else
    .error (ks.failure key_id data)

/-- The `Mutex`-guarded key-store reference held by the core
(`Option<&Mutex<M, &mut dyn KeyStore>>`).  `locked` records whether another
task currently holds the mutex, i.e. whether `try_lock` fails. -/
structure KeyStoreHandle where
  store : KeyStore
  locked : Bool

/-- `ClientChannel` (core.rs lines 48-52): the peekable request source and
the response sink of one client.  `requests` is the queue content (head =
next peekable request); `responses` lists the responses accepted by the sink
so far, oldest first. -/
structure ClientChannel where
  requests : List Request
  responses : List Response
  deriving DecidableEq

/-- `WorkerChannel` (core.rs lines 55-64): the advertised request types, the
bounded request sink (content plus capacity; `poll_ready` succeeds iff
`requests.length < req_capacity`) and the peekable response source of one
worker. -/
structure WorkerChannel where
  req_types : List RequestType
  requests : List Request
  req_capacity : Nat
  responses : List Response
  deriving DecidableEq

/-- The `MAX_REQUEST_TYPES` const generic of core.rs, at its default 8. -/
def MAX_REQUEST_TYPES : Nat := 8

/-- The `MAX_CLIENTS` const generic of core.rs, at its default 8. -/
def MAX_CLIENTS : Nat := 8

/-- The `MAX_WORKERS` const generic of core.rs, at its default 8. -/
def MAX_WORKERS : Nat := 8

/-- A Rust panic reachable in core.rs, identified by its source site. -/
inductive Panic where
  /-- `panic!("Channel for given request type already exists")` in `with_worker`. -/
  | channelForRequestTypeExists
  /-- `expect("Maximum number of request types for single worker exceeded")` in `with_worker`. -/
  | maxRequestTypesExceeded
  /-- `panic!("Failed to add client channel")` in `with_client`. -/
  | failedToAddClientChannel
  /-- `panic!("Failed to add worker channel")` in `with_worker`. -/
  | failedToAddWorkerChannel
  /-- `expect("Failed to find worker channel for request type")`. -/
  | failedToFindWorkerChannel
  /-- `expect("Failed to lock key store")` in `process_request`. -/
  | failedToLockKeyStore
  /-- `panic!("Invalid internal client ID")` in `send_to_client`. -/
  | invalidInternalClientId
  /-- Indexing `self.clients[client_index]` out of bounds. -/
  | clientIndexOutOfBounds
  /-- `(self.last_client_id + 1) % number_of_clients` with zero clients:
  Rust panics on remainder by zero. -/
  | remainderByZero
  deriving DecidableEq

/-- `Builder` (core.rs lines 66-81). -/
structure Builder where
  key_store : Option KeyStoreHandle
  clients : List ClientChannel
  workers : List WorkerChannel

/-- `Core` (core.rs lines 29-46): topology tables plus the two round-robin
cursors. -/
structure Core where
  key_store : Option KeyStoreHandle
  clients : List ClientChannel
  workers : List WorkerChannel
  last_client_id : Nat
  last_worker_id : Nat

/-- `Builder::new` (core.rs lines 138-155). -/
def Builder.new : Builder :=
  { key_store := none, clients := [], workers := [] }

/-- `Builder::with_keystore` (core.rs lines 157-163). -/
def Builder.with_keystore (b : Builder) (handle : KeyStoreHandle) : Builder :=
  { b with key_store := some handle }

/-- `Builder::with_client` (core.rs lines 165-177): append a client channel;
the push into `Vec<_, MAX_CLIENTS>` fails (and the code panics) when the
vector is full. -/
def Builder.with_client (b : Builder) (requests : List Request) :
    Except Panic Builder :=
  if MAX_CLIENTS ≤ b.clients.length then
    .error .failedToAddClientChannel
  else
    .ok { b with clients := b.clients ++ [{ requests := requests, responses := [] }] }

/-- `Builder::with_worker` (core.rs lines 179-205).  First the duplicate
check: for every already registered channel and every new request type, if
the channel already contains the type the code panics.  Then
`Vec::from_slice` fails when the type list exceeds `MAX_REQUEST_TYPES`, and
the push fails when the worker table is full.  The new channel's request
sink starts empty with capacity `req_capacity`. -/
def Builder.with_worker (b : Builder) (req_types : List RequestType)
    (req_capacity : Nat) (responses : List Response) : Except Panic Builder :=
  if ∃ w ∈ b.workers, ∃ t ∈ req_types, t ∈ w.req_types then
    .error .channelForRequestTypeExists
  else if MAX_REQUEST_TYPES < req_types.length then
    .error .maxRequestTypesExceeded
  else if MAX_WORKERS ≤ b.workers.length then
    .error .failedToAddWorkerChannel
  else
    .ok { b with workers := b.workers ++
      [{ req_types := req_types, requests := [], req_capacity := req_capacity,
         responses := responses }] }

/-- `Builder::build` (core.rs lines 207-228): freeze the topology, cursors
initialised to 0.  There is no validation in `build` itself. -/
def Builder.build (b : Builder) : Core :=
  { key_store := b.key_store, clients := b.clients, workers := b.workers,
    last_client_id := 0, last_worker_id := 0 }

/-- `self.workers.iter().find(|c| c.req_types.contains(&request_type))`:
the first worker channel advertising the type, together with its index. -/
def find_worker : List WorkerChannel → RequestType → Option (Nat × WorkerChannel)
  | [], _ => none
  | w :: rest, t =>
    if t ∈ w.req_types then
      some (0, w)
    else
      match find_worker rest t with
      | none => none
      | some (i, w') => some (i + 1, w')

/-- Outcome of the `select_array` over the per-client futures in
`process_client_requests`. -/
inductive SelectResult where
  /-- The future at rotated position `pos` completed first; its resolved
  worker has index `widx` in the worker table. -/
  | winner (pos widx : Nat)
  /-- No client future is ready: the select suspends. -/
  | pending
  /-- Polling one of the futures panicked. -/
  | panic (p : Panic)
  deriving DecidableEq

/-- One poll of the `select_array` (core.rs lines 274-312): the rotated
clients are polled in order; a client whose request source has no peekable
head is pending; otherwise the worker for the head's type is resolved (the
`expect` panics when no worker advertises it) and `poll_ready` on that
worker's request sink decides readiness.  The first ready client wins. -/
def select_clients (workers : List WorkerChannel) :
    List ClientChannel → Nat → SelectResult
  | [], _ => .pending
  | ch :: rest, pos =>
    match ch.requests.head? with
    | none => select_clients workers rest (pos + 1)
    | some req =>
      match find_worker workers req.get_type with
      | none => .panic .failedToFindWorkerChannel
      | some (widx, w) =>
        if w.requests.length < w.req_capacity then
          .winner pos widx
        else
          select_clients workers rest (pos + 1)

/-- Replace the element at index `i` by `f` of it (out-of-range indices
leave the list unchanged). -/
def update_at {α : Type} : List α → Nat → (α → α) → List α
  | [], _, _ => []
  | x :: xs, 0, f => f x :: xs
  | x :: xs, n + 1, f => x :: update_at xs n f

/-- Outcome of one modelled `execute()` step. -/
inductive StepResult where
  /-- The step committed (one request forwarded, or one response synthesized
  and sent); `c` is the new state. -/
  | ok (c : Core)
  /-- The step suspends awaiting readiness before committing anything; `c`
  is the (unchanged) state at the suspension point. -/
  | pending (c : Core)
  /-- The step suspends after the select, inside a dequeue or send on a
  queue that is not ready; `c` is the state at that suspension point. -/
  | blocked (c : Core)
  /-- The step panicked. -/
  | panic (p : Panic)

/-- The rotated client permutation of core.rs lines 266-269:
`split_at((last_client_id + 1) % N)` followed by `right.chain(left)`. -/
def Core.rotated_clients (c : Core) : List ClientChannel :=
  c.clients.drop ((c.last_client_id + 1) % c.clients.length) ++
    c.clients.take ((c.last_client_id + 1) % c.clients.length)

/-- The select over the rotated clients (core.rs lines 274-312). -/
def Core.select_result (c : Core) : SelectResult :=
  select_clients c.workers c.rotated_clients 0

/-- Core.rs line 317: `self.last_client_id = (client_index +
self.last_client_id + 1) % number_of_clients`, where `client_index` is the
winner's position in the rotated permutation. -/
def Core.advance_cursor (c : Core) (pos : Nat) : Core :=
  { c with last_client_id := (pos + c.last_client_id + 1) % c.clients.length }

/-- Core.rs lines 318-330: dequeue the head of `self.clients[client_index]`
(note: `client_index` is the rotated position used as an absolute index) and
push the dequeued request onto the selected worker's request sink. -/
def Core.commit_forward (c : Core) (pos widx : Nat) (req : Request) : Core :=
  { c with
    clients := update_at c.clients pos (fun cc => { cc with requests := cc.requests.tail }),
    workers := update_at c.workers widx (fun w => { w with requests := w.requests ++ [req] }) }

/-- `Core::process_client_requests` (core.rs lines 264-331).  With zero
clients the index computation `(last_client_id + 1) % 0` panics.  Otherwise
the select over the rotated clients either panics, suspends, or yields a
winner; for a winner the cursor is advanced first (line 317), then the head
of `self.clients[client_index]` is dequeued — suspending if that queue is
empty — and the dequeued request is pushed onto the selected worker's
request sink. -/
def Core.process_client_requests (c : Core) : StepResult :=
  if c.clients.length = 0 then
    .panic .remainderByZero
  else
    match c.select_result with
    | .panic p => .panic p
    | .pending => .pending c
    | .winner pos widx =>
      match c.clients[pos]? with
      | none => .panic .clientIndexOutOfBounds
      | some ch =>
        match ch.requests.head? with
        | none => .blocked (c.advance_cursor pos)
        | some req => .ok ((c.advance_cursor pos).commit_forward pos widx req)

/-- `Core::process_worker_responses` (core.rs lines 333-396): the entire
body is commented out in the source; the function returns `Ok(())` without
touching any state. -/
def Core.process_worker_responses (c : Core) : Core := c

/-- `Core::execute` (core.rs lines 256-260): it awaits
`process_client_requests` and returns `Ok(())`; the call to
`process_worker_responses` is commented out. -/
def Core.execute (c : Core) : StepResult :=
  c.process_client_requests

/-- `Core::send_to_client` (core.rs lines 451-464): deliver a response to
the client selected by the response's embedded client id, panicking on an
out-of-range id.  The sink send is modelled as an append (the code awaits
sink capacity). -/
def Core.send_to_client (c : Core) (response : Response) : StepResult :=
  match c.clients[response.get_client_id]? with
  | some _ =>
    .ok { c with clients := (update_at c.clients response.get_client_id
      (fun ch => { ch with responses := ch.responses ++ [response] })) }
  | none => .panic .invalidInternalClientId

/-- `Core::process_request` (core.rs lines 398-449).  `ImportKey` is handled
locally: the key-store mutex is taken with `try_lock().expect(...)` — a
panic when contended — and the response (success, key-store error, or
`NoKeyStore` when no store is attached) is sent to the originating client.
Every other request is forwarded to the worker advertising its type.  Note
that this function is never called from `execute()` in the source. -/
def Core.process_request (c : Core) (request : Request) : StepResult :=
  match request with
  | .ImportKey client_id request_id key_id data =>
    match c.key_store with
    | some handle =>
      if handle.locked then
        .panic .failedToLockKeyStore
      else
        match handle.store.keyImport key_id data with
        | .ok store' =>
          Core.send_to_client
            { c with key_store := some { handle with store := store' } }
            (.ImportKey client_id request_id)
        | .error e =>
          c.send_to_client (.Error client_id request_id (.KeyStore e))
    | none => c.send_to_client (.Error client_id request_id .NoKeyStore)
  | _ =>
    match find_worker c.workers request.get_type with
    | none => .panic .failedToFindWorkerChannel
    | some (widx, w) =>
      if w.requests.length < w.req_capacity then
        .ok { c with workers := (update_at c.workers widx
          (fun ww => { ww with requests := ww.requests ++ [request] })) }
      else
        .blocked c

/-- Invariant 5 of the spec: both cursors are within their tables. -/
def cursor_invariant (c : Core) : Prop :=
  c.last_client_id < c.clients.length ∧ c.last_worker_id < c.workers.length

/-! Concrete states used by the claim theorems and witnesses. -/

/-- A client whose head request is `ImportKey`, in a core with no key store
and a single RNG worker (the topology of the repository's example binary). -/
def exCoreC1 : Core :=
  { key_store := none,
    clients := [{ requests := [.ImportKey 0 7 1 [1, 2]], responses := [] }],
    workers := [{ req_types := [.GetRandom], requests := [], req_capacity := 8,
                  responses := [] }],
    last_client_id := 0, last_worker_id := 0 }

/-- A core with no pending client request but a response waiting at the head
of the worker's response source. -/
def exCoreC2 : Core :=
  { key_store := none,
    clients := [{ requests := [], responses := [] }],
    workers := [{ req_types := [.GetRandom], requests := [], req_capacity := 8,
                  responses := [Response.GetRandom 0 1 [42]] }],
    last_client_id := 0, last_worker_id := 0 }

/-- The RNG worker of `exCoreC3`: its request sink has capacity. -/
def exWorkerReadyC3 : WorkerChannel :=
  { req_types := [.GetRandom], requests := [], req_capacity := 1, responses := [] }

/-- The ChaCha worker of `exCoreC3`: its request sink has no free capacity,
so `poll_ready` on it never succeeds. -/
def exWorkerFullC3 : WorkerChannel :=
  { req_types := [.EncryptChaCha20Poly1305], requests := [], req_capacity := 0,
    responses := [] }

/-- Two clients and two workers: client 0's head is `GetRandom` (its worker
has capacity), client 1's head is `EncryptChaCha20Poly1305` (its worker's
sink is full).  With `last_client_id = 0` the rotation starts at client 1. -/
def exCoreC3 : Core :=
  { key_store := none,
    clients := [{ requests := [.GetRandom 0 1 16], responses := [] },
                { requests := [.EncryptChaCha20Poly1305 1 2 0 [9]], responses := [] }],
    workers := [exWorkerReadyC3, exWorkerFullC3],
    last_client_id := 0, last_worker_id := 0 }

/-- Single ready client and single ready worker. -/
def exCoreC4 : Core :=
  { key_store := none,
    clients := [{ requests := [.GetRandom 0 1 4], responses := [] }],
    workers := [{ req_types := [.GetRandom], requests := [], req_capacity := 1,
                  responses := [] }],
    last_client_id := 0, last_worker_id := 0 }

/-- The state after one `execute()` on `exCoreC4`. -/
def exCoreC4' : Core :=
  { key_store := none,
    clients := [{ requests := [], responses := [] }],
    workers := [{ req_types := [.GetRandom], requests := [.GetRandom 0 1 4],
                  req_capacity := 1, responses := [] }],
    last_client_id := 0, last_worker_id := 0 }

/-- A builder holding one client and one worker. -/
def exBuilderC5 : Builder :=
  { key_store := none,
    clients := [{ requests := [], responses := [] }],
    workers := [{ req_types := [.GetRandom], requests := [], req_capacity := 1,
                  responses := [] }] }

/-- A builder that already registered a worker advertising `GetRandom`. -/
def exBuilderC6 : Builder :=
  { key_store := none, clients := [],
    workers := [{ req_types := [.GetRandom], requests := [], req_capacity := 4,
                  responses := [] }] }

/-- A key store that accepts every import. -/
def exKeyStoreOk : KeyStore :=
  { accepts := fun _ _ => true, failure := fun _ _ => { code := 0 }, keys := [] }

/-- An uncontended handle on `exKeyStoreOk`. -/
def exHandleC7 : KeyStoreHandle := { store := exKeyStoreOk, locked := false }

/-- A client channel with empty queues. -/
def exClientC7 : ClientChannel := { requests := [], responses := [] }

/-- A core with an uncontended, accepting key store and one client. -/
def exCoreC7 : Core :=
  { key_store := some exHandleC7, clients := [exClientC7], workers := [],
    last_client_id := 0, last_worker_id := 0 }

/-- A contended handle on `exKeyStoreOk`. -/
def exHandleC8 : KeyStoreHandle := { store := exKeyStoreOk, locked := true }

/-- A core whose key-store mutex is currently held by another task. -/
def exCoreC8 : Core :=
  { key_store := some exHandleC8,
    clients := [{ requests := [], responses := [] }], workers := [],
    last_client_id := 0, last_worker_id := 0 }

/-- A quiescent core: one client, no queued request. -/
def exCoreC9 : Core :=
  { key_store := none,
    clients := [{ requests := [], responses := [] }],
    workers := [{ req_types := [.GetRandom], requests := [], req_capacity := 1,
                  responses := [] }],
    last_client_id := 0, last_worker_id := 0 }

/-- A core with one (idle) registered client. -/
def exCoreC10 : Core :=
  { key_store := none,
    clients := [{ requests := [], responses := [] }], workers := [],
    last_client_id := 0, last_worker_id := 0 }

/-! Helper lemmas. -/

theorem update_at_length {α : Type} (l : List α) (i : Nat) (f : α → α) :
    (update_at l i f).length = l.length := by
  induction l generalizing i with
  | nil => rfl
  | cons x xs ih =>
    cases i with
    | zero => rfl
    | succ n => simpa [update_at] using ih n

theorem update_at_get {α : Type} (l : List α) (i : Nat) (f : α → α) :
    (update_at l i f)[i]? = l[i]?.map f := by
  induction l generalizing i with
  | nil => rfl
  | cons x xs ih =>
    cases i with
    | zero => simp [update_at]
    | succ n => simpa [update_at] using ih n

theorem select_clients_pending (workers : List WorkerChannel) (l : List ClientChannel)
    (hall : ∀ ch ∈ l, ch.requests = []) (pos : Nat) :
    select_clients workers l pos = .pending := by
  induction l generalizing pos with
  | nil => rfl
  | cons ch rest ih =>
    have hch : ch.requests = [] := hall ch (by simp)
    have hh : ch.requests.head? = none := by simp [hch]
    simp only [select_clients, hh]
    exact ih (fun x hx => hall x (by simp [hx])) (pos + 1)

theorem select_clients_panic_kind (workers : List WorkerChannel)
    (l : List ClientChannel) (pos : Nat) (p : Panic)
    (h : select_clients workers l pos = .panic p) : p = .failedToFindWorkerChannel := by
  induction l generalizing pos with
  | nil => simp [select_clients] at h
  | cons ch rest ih =>
    cases hh : ch.requests.head? with
    | none =>
      simp only [select_clients, hh] at h
      exact ih (pos + 1) h
    | some req =>
      cases hf : find_worker workers req.get_type with
      | none =>
        simp only [select_clients, hh, hf] at h
        cases h
        rfl
      | some iw =>
        simp only [select_clients, hh, hf] at h
        split at h
        · cases h
        · exact ih (pos + 1) h

theorem pcr_pending_eq (c c' : Core)
    (h : c.process_client_requests = .pending c') : c' = c := by
  by_cases hn : c.clients.length = 0
  · simp [Core.process_client_requests, hn] at h
  cases hsel : c.select_result with
  | winner pos widx =>
    simp only [Core.process_client_requests, hn, if_false, hsel] at h
    cases hget : c.clients[pos]? with
    | none => simp [hget] at h
    | some ch =>
      cases hreq : ch.requests.head? with
      | none => simp [hget, hreq] at h
      | some req => simp [hget, hreq] at h
  | pending =>
    simp only [Core.process_client_requests, hn, if_false, hsel] at h
    cases h
    rfl
  | panic p =>
    simp [Core.process_client_requests, hn, hsel] at h

theorem pcr_ok_eq (c c' : Core)
    (h : c.process_client_requests = .ok c') :
    c.clients.length ≠ 0 ∧
    ∃ pos widx ch req,
      c.select_result = .winner pos widx ∧
      c.clients[pos]? = some ch ∧
      ch.requests.head? = some req ∧
      c' = (c.advance_cursor pos).commit_forward pos widx req := by
  by_cases hn : c.clients.length = 0
  · simp [Core.process_client_requests, hn] at h
  refine ⟨hn, ?_⟩
  cases hsel : c.select_result with
  | winner pos widx =>
    simp only [Core.process_client_requests, hn, if_false, hsel] at h
    cases hget : c.clients[pos]? with
    | none => simp [hget] at h
    | some ch =>
      cases hreq : ch.requests.head? with
      | none => simp [hget, hreq] at h
      | some req =>
        simp only [hget, hreq] at h
        cases h
        exact ⟨pos, widx, ch, req, rfl, hget, hreq, rfl⟩
  | pending =>
    simp [Core.process_client_requests, hn, hsel] at h
  | panic p =>
    simp [Core.process_client_requests, hn, hsel] at h

theorem pcr_blocked_eq (c c' : Core)
    (h : c.process_client_requests = .blocked c') :
    c.clients.length ≠ 0 ∧
    ∃ pos widx ch,
      c.select_result = .winner pos widx ∧
      c.clients[pos]? = some ch ∧
      ch.requests.head? = none ∧
      c' = c.advance_cursor pos := by
  by_cases hn : c.clients.length = 0
  · simp [Core.process_client_requests, hn] at h
  refine ⟨hn, ?_⟩
  cases hsel : c.select_result with
  | winner pos widx =>
    simp only [Core.process_client_requests, hn, if_false, hsel] at h
    cases hget : c.clients[pos]? with
    | none => simp [hget] at h
    | some ch =>
      cases hreq : ch.requests.head? with
      | none =>
        simp only [hget, hreq] at h
        cases h
        exact ⟨pos, widx, ch, rfl, hget, hreq, rfl⟩
      | some req => simp [hget, hreq] at h
  | pending =>
    simp [Core.process_client_requests, hn, hsel] at h
  | panic p =>
    simp [Core.process_client_requests, hn, hsel] at h

/-! Claim theorems. -/

/-- Claim C1 (code_bug).  The claim says `execute()` handles a winning
`ImportKey` head request locally (bypassing the worker forward) and sends a
`Response` — `Error::NoKeyStore` when no key store is attached — to the
client's sink without touching any worker queue.  In the source,
`execute()` only runs `process_client_requests`, which resolves every head
request, `ImportKey` included, through the worker table: with no worker
advertising `ImportKey` it panics at `expect("Failed to find worker channel
for request type")`.  The local key-store handler exists as
`process_request` — the second conjunct shows it would synthesize exactly
the claimed `NoKeyStore` error response — but `execute()` never calls it. -/
theorem C1_keystore_bypass_missing :
    exCoreC1.execute = .panic .failedToFindWorkerChannel ∧
    exCoreC1.process_request (.ImportKey 0 7 1 [1, 2]) =
      .ok { exCoreC1 with clients := (update_at exCoreC1.clients 0
        (fun cc => { cc with responses :=
          cc.responses ++ [Response.Error 0 7 .NoKeyStore] })) } :=
  ⟨rfl, rfl⟩

/-- Claim C2 (code_bug).  The claim says `execute()` dequeues a response at
the head of a worker's response source and delivers it to the client chosen
by its embedded client id.  In the source the call to
`process_worker_responses` inside `execute()` is commented out, and the body
of `process_worker_responses` itself is entirely commented out (it returns
`Ok(())` without touching state).  On a core whose worker holds a queued
response and whose client has no request, `execute()` merely suspends: the
response is never dequeued and nothing reaches the client sink. -/
theorem C2_responder_inactive :
    exCoreC2.execute = .pending exCoreC2 ∧
    Core.process_worker_responses exCoreC2 = exCoreC2 ∧
    exCoreC2.workers.map WorkerChannel.responses = [[Response.GetRandom 0 1 [42]]] :=
  ⟨rfl, rfl, rfl⟩

/-- Claim C3 (code_bug).  The claim says a request is dequeued from a client
only after the worker resolved for it reported poll-ready.  In the source
the select winner's index is its position in the ROTATED permutation, but
the dequeue indexes the UNROTATED client table with it
(`self.clients[client_index]`).  Here the rotation starts at client 1;
client 1's head (`EncryptChaCha20Poly1305`) resolves to `exWorkerFullC3`,
which has no capacity, so client 0 wins at rotated position 1 — and the code
then dequeues from `clients[1]`, removing client 1's request even though its
resolved worker never reported readiness, and appends it to the `GetRandom`
worker's queue. -/
theorem C3_wrong_client_dequeued :
    exCoreC3.execute = .ok
      { key_store := none,
        clients := [{ requests := [.GetRandom 0 1 16], responses := [] },
                    { requests := [], responses := [] }],
        workers := [{ req_types := [.GetRandom],
                      requests := [.EncryptChaCha20Poly1305 1 2 0 [9]],
                      req_capacity := 1, responses := [] },
                    exWorkerFullC3],
        last_client_id := 0, last_worker_id := 0 } ∧
    find_worker exCoreC3.workers (Request.EncryptChaCha20Poly1305 1 2 0 [9]).get_type =
      some (1, exWorkerFullC3) ∧
    ¬ (exWorkerFullC3.requests.length < exWorkerFullC3.req_capacity) :=
  ⟨rfl, rfl, by decide⟩

/-- Claim C4 (confirmed).  After every committed forward,
`last_client_id` equals `(old_last_client_id + 1 + position_in_rotated_
permutation) mod N_clients` — the absolute index of the select winner — and
is set to it, not merely incremented. -/
theorem C4_cursor_advance (c c' : Core) (pos widx : Nat)
    (hsel : c.select_result = .winner pos widx)
    (hok : c.process_client_requests = .ok c') :
    c'.last_client_id = (c.last_client_id + 1 + pos) % c.clients.length := by
  obtain ⟨hn, pos', widx', ch, req, hsel', hget, hreq, hc'⟩ := pcr_ok_eq c c' hok
  rw [hsel] at hsel'
  cases hsel'
  subst hc'
  show (pos + c.last_client_id + 1) % c.clients.length = _
  have hadd : pos + c.last_client_id + 1 = c.last_client_id + 1 + pos := by omega
  rw [hadd]

/-- Witness for C4 at a concrete one-client, one-worker core. -/
theorem C4_witness :
    exCoreC4'.last_client_id =
      (exCoreC4.last_client_id + 1 + 0) % exCoreC4.clients.length :=
  C4_cursor_advance exCoreC4 exCoreC4' 0 0 rfl rfl

/-- Claim C5 counterexample.  The claim asserts the cursor invariant holds
in the state produced by every `build()`; but `build()` performs no
validation and succeeds with zero registered clients and workers, where both
cursors are 0 and `0 < 0` fails. -/
theorem C5_counterexample : ¬ cursor_invariant ((Builder.new).build) :=
  fun h => Nat.lt_irrefl 0 h.1

/-- Claim C5 (corrected).  Amended: provided at least one client and at
least one worker were registered, `build()` establishes
`last_client_id < N_clients ∧ last_worker_id < N_workers`, and every
non-panicking outcome of `execute()` preserves it. -/
theorem C5_cursor_invariant :
    (∀ b : Builder, b.clients ≠ [] → b.workers ≠ [] → cursor_invariant b.build) ∧
    (∀ c c' : Core, cursor_invariant c →
      (c.execute = .ok c' ∨ c.execute = .pending c' ∨ c.execute = .blocked c') →
      cursor_invariant c') := by
  constructor
  · intro b hb hw
    constructor
    · simpa [Builder.build, List.length_pos] using hb
    · simpa [Builder.build, List.length_pos] using hw
  · intro c c' hinv hcase
    rcases hcase with h | h | h
    · obtain ⟨hn, pos, widx, ch, req, hsel, hget, hreq, hc'⟩ := pcr_ok_eq c c' h
      subst hc'
      constructor
      · simp only [Core.advance_cursor, Core.commit_forward, update_at_length]
        exact Nat.mod_lt _ (Nat.pos_of_ne_zero hn)
      · simp only [Core.advance_cursor, Core.commit_forward, update_at_length]
        exact hinv.2
    · rw [pcr_pending_eq c c' h]
      exact hinv
    · obtain ⟨hn, pos, widx, ch, hsel, hget, hreq, hc'⟩ := pcr_blocked_eq c c' h
      subst hc'
      constructor
      · simp only [Core.advance_cursor]
        exact Nat.mod_lt _ (Nat.pos_of_ne_zero hn)
      · simpa [Core.advance_cursor] using hinv.2

/-- Witness for C5 at a one-client, one-worker builder: the invariant holds
after `build()`, and is preserved across the (quiescent) `execute()`. -/
theorem C5_witness :
    cursor_invariant (exBuilderC5.build) ∧ cursor_invariant (exBuilderC5.build) :=
  ⟨C5_cursor_invariant.1 exBuilderC5 (by decide) (by decide),
   C5_cursor_invariant.2 exBuilderC5.build exBuilderC5.build
     (C5_cursor_invariant.1 exBuilderC5 (by decide) (by decide))
     (Or.inr (Or.inl rfl))⟩

/-- Claim C6 (confirmed).  Whenever some already registered worker channel
advertises any type of the new worker's list, `with_worker` aborts (the
panic `Channel for given request type already exists`) before any `Core` can
be produced: no builder with intersecting worker type sets ever reaches
`build()`. -/
theorem C6_disjoint_types (b : Builder) (req_types : List RequestType)
    (req_capacity : Nat) (responses : List Response)
    (h : ∃ w ∈ b.workers, ∃ t ∈ req_types, t ∈ w.req_types) :
    b.with_worker req_types req_capacity responses =
      .error .channelForRequestTypeExists := by
  unfold Builder.with_worker
  rw [if_pos h]

/-- Witness for C6: registering a `GetRandom` worker succeeds once, and a
second worker also claiming `GetRandom` aborts the build. -/
theorem C6_witness :
    Builder.new.with_worker [.GetRandom] 4 [] = .ok exBuilderC6 ∧
    (∃ w ∈ exBuilderC6.workers,
      ∃ t ∈ [RequestType.GetRandom, RequestType.ImportKey], t ∈ w.req_types) ∧
    exBuilderC6.with_worker [.GetRandom, .ImportKey] 4 [] =
      .error .channelForRequestTypeExists :=
  ⟨rfl, by decide,
   C6_disjoint_types exBuilderC6 [.GetRandom, .ImportKey] 4 [] (by decide)⟩

/-- Claim C7 (confirmed).  Processing
`ImportKey{client_id, request_id, key_id, data}` against an attached,
uncontended key store that accepts the import yields
`Response::ImportKey{client_id, request_id}` on exactly that client's
response sink (appended after everything previously sent; the head of the
sink when it was empty), with the key stored. -/
theorem C7_roundtrip (c : Core) (handle : KeyStoreHandle)
    (cid rid kid : Nat) (data : List Nat) (ch : ClientChannel)
    (hks : c.key_store = some handle)
    (hlock : handle.locked = false)
    (hacc : handle.store.accepts kid data = true)
    (hch : c.clients[cid]? = some ch) :
    c.process_request (.ImportKey cid rid kid data) =
      .ok { c with
        key_store := some { handle with store :=
          { handle.store with keys := handle.store.keys ++ [(kid, data)] } },
        clients := (update_at c.clients cid
          (fun cc => { cc with responses :=
            cc.responses ++ [Response.ImportKey cid rid] })) } ∧
    ((update_at c.clients cid
        (fun cc => { cc with responses :=
          cc.responses ++ [Response.ImportKey cid rid] }))[cid]?.map
      ClientChannel.responses) = some (ch.responses ++ [Response.ImportKey cid rid]) ∧
    (ch.responses = [] →
      ((update_at c.clients cid
          (fun cc => { cc with responses :=
            cc.responses ++ [Response.ImportKey cid rid] }))[cid]?.bind
        (fun cc => cc.responses.head?)) = some (Response.ImportKey cid rid)) := by
  refine ⟨?_, ?_, ?_⟩
  · simp [Core.process_request, hks, hlock, KeyStore.keyImport, hacc,
      Core.send_to_client, Response.get_client_id, hch]
  · simp [update_at_get, hch]
  · intro he
    simp [update_at_get, hch, he]

/-- Witness for C7 at a concrete core with an accepting key store. -/
theorem C7_witness :
    (exCoreC7.process_request (.ImportKey 0 3 1 [7]) =
      .ok { exCoreC7 with
        key_store := some { exHandleC7 with store :=
          { exHandleC7.store with keys := exHandleC7.store.keys ++ [(1, [7])] } },
        clients := (update_at exCoreC7.clients 0
          (fun cc => { cc with responses :=
            cc.responses ++ [Response.ImportKey 0 3] })) }) ∧
    ((update_at exCoreC7.clients 0
        (fun cc => { cc with responses :=
          cc.responses ++ [Response.ImportKey 0 3] }))[0]?.map
      ClientChannel.responses) = some (exClientC7.responses ++ [Response.ImportKey 0 3]) ∧
    (exClientC7.responses = [] →
      ((update_at exCoreC7.clients 0
          (fun cc => { cc with responses :=
            cc.responses ++ [Response.ImportKey 0 3] }))[0]?.bind
        (fun cc => cc.responses.head?)) = some (Response.ImportKey 0 3)) :=
  C7_roundtrip exCoreC7 exHandleC7 0 3 1 [7] exClientC7 rfl rfl rfl rfl

/-- Claim C8 counterexample.  With the key-store mutex held by another task,
handling an `ImportKey` request does abort: `try_lock().expect("Failed to
lock key store")` panics instead of yielding and retrying. -/
theorem C8_counterexample :
    exCoreC8.process_request (.ImportKey 0 1 2 [3]) = .panic .failedToLockKeyStore :=
  rfl

/-- Claim C8 (corrected).  Amended: when the key-store mutex is contended,
the core panics at `expect("Failed to lock key store")`; it does not yield
and retry on the next `execute()` tick. -/
theorem C8_contended_mutex_panics (c : Core) (handle : KeyStoreHandle)
    (cid rid kid : Nat) (data : List Nat)
    (hks : c.key_store = some handle) (hlock : handle.locked = true) :
    c.process_request (.ImportKey cid rid kid data) = .panic .failedToLockKeyStore := by
  simp [Core.process_request, hks, hlock]

/-- Witness for the amended C8 at a concrete contended core. -/
theorem C8_witness :
    exCoreC8.process_request (.ImportKey 9 9 9 [9]) = .panic .failedToLockKeyStore :=
  C8_contended_mutex_panics exCoreC8 exHandleC8 9 9 9 [9] rfl rfl

/-- Claim C9 (confirmed, for a core with at least one registered client —
with zero clients `execute()` panics unconditionally, which is claim C10).
When no client request source has a peekable head, `execute()` suspends
awaiting readiness with the state — in particular `last_client_id` and
`last_worker_id` — completely unchanged. -/
theorem C9_no_activity_no_change (c : Core)
    (hne : c.clients.length ≠ 0)
    (hempty : ∀ ch ∈ c.clients, ch.requests = []) :
    c.execute = .pending c := by
  have hrot : ∀ ch ∈ c.rotated_clients, ch.requests = [] := by
    intro ch hch
    unfold Core.rotated_clients at hch
    rcases List.mem_append.mp hch with h | h
    · exact hempty ch (List.drop_subset _ _ h)
    · exact hempty ch (List.take_subset _ _ h)
  have hsel : c.select_result = .pending :=
    select_clients_pending c.workers c.rotated_clients hrot 0
  show c.process_client_requests = .pending c
  simp [Core.process_client_requests, hne, hsel]

/-- Witness for C9 at a quiescent one-client core. -/
theorem C9_witness : exCoreC9.execute = .pending exCoreC9 :=
  C9_no_activity_no_change exCoreC9 (by decide) (by decide)

/-- Claim C10 (confirmed).  `build()` itself performs no validation and
succeeds with zero registered clients, but `execute()` on such a core panics
computing `(last_client_id + 1) % number_of_clients` with
`number_of_clients = 0`; with at least one registered client that panic is
unreachable. -/
theorem C10_zero_clients :
    (∀ b : Builder, b.clients = [] →
      (b.build).clients = [] ∧ (b.build).execute = .panic .remainderByZero) ∧
    (∀ c : Core, c.clients.length ≠ 0 → c.execute ≠ .panic .remainderByZero) := by
  constructor
  · intro b hb
    refine ⟨hb, ?_⟩
    show (b.build).process_client_requests = _
    have hlen : (b.build).clients.length = 0 := by simp [Builder.build, hb]
    simp [Core.process_client_requests, hlen]
  · intro c hn h
    have h' : c.process_client_requests = .panic .remainderByZero := h
    cases hsel : c.select_result with
    | winner pos widx =>
      simp only [Core.process_client_requests, hn, if_false, hsel] at h'
      cases hget : c.clients[pos]? with
      | none => simp [hget] at h'
      | some ch =>
        cases hreq : ch.requests.head? with
        | none => simp [hget, hreq] at h'
        | some req => simp [hget, hreq] at h'
    | pending =>
      simp [Core.process_client_requests, hn, hsel] at h'
    | panic p =>
      simp only [Core.process_client_requests, hn, if_false, hsel] at h'
      injection h' with hp
      have hk : p = .failedToFindWorkerChannel :=
        select_clients_panic_kind c.workers c.rotated_clients 0 p hsel
      rw [hk] at hp
      exact Panic.noConfusion hp

/-- Witness for C10: the zero-client build panics in `execute()`, a
one-client core never hits the remainder-by-zero panic. -/
theorem C10_witness :
    ((Builder.new).build).execute = .panic .remainderByZero ∧
    exCoreC10.execute ≠ .panic .remainderByZero :=
  ⟨(C10_zero_clients.1 Builder.new rfl).2,
   C10_zero_clients.2 exCoreC10 (by decide)⟩
